import Mathlib

/-!
# SafeMind: the two `generateText` serverless handlers

A shallow embedding of `src/generateText.js` (the OpenAI proxy) and of
`src/SafeMind/api/generateText.js` (the Groq proxy), and the properties of
their request/response contract.

## How the JavaScript is embedded

* A JavaScript value that can come out of `JSON.parse` (the request body, the
  upstream body) or out of a property read on one is a `JSVal`.  Numbers are the
  safe integers, an `Int` together with the bound `|n| ≤ 2 ^ 53 - 1`: the
  handlers only test a number for truthiness, compare it with `0` and print it,
  and on the safe integers the three are exact (in particular a safe integer
  prints in plain decimal).  Numbers with a fraction and numbers beyond the safe
  range are outside the model.  Strings are sequences of Unicode scalar
  values, so a string with an unpaired surrogate is outside the model as well.
* Parsed JSON holds no function.  A property read therefore finds an own
  property or nothing, except for `length` of arrays and strings and for the
  conversion of an object to a primitive, where an own `toString` property
  hides the inherited method and the conversion throws.
* The response records what the handler itself sets: the status, the headers
  of `res.setHeader`, and the body given to `res.end` or `res.json`.
* A thrown value is a `JSError` carrying its `message`; the `try`/`catch` of the
  handlers is the `Except JSError` of `tryBefore`/`tryAfter` together with
  `catchBlock`.
* The handler awaits one outbound `fetch`.  The code before it is `tryBefore`
  (it ends in a response or in the outbound request), the code after it is
  `tryAfter` (it maps what the upstream did to a response), and `handler` puts
  both under the method check and the `catch`.  `handler` returns the response
  together with the list of outbound calls that were made.  `handler` takes the
  outcome of its `fetch` as an argument; `serve` is the handler with the `fetch`
  of the platform, which refuses a request whose header value is not legal.
* `console.error` only writes to the server log and is not part of the model.
-/

namespace SafeMind

/-! ## JavaScript values -/

/-- JavaScript values reachable from parsed JSON. -/
inductive JSVal where
  | undefined
  | null
  | bool (b : Bool)
  | num (n : Int) (safe : n.natAbs ≤ 9007199254740991)
  | str (s : String)
  | arr (xs : List JSVal)
  | obj (fields : List (String × JSVal))

/-- A thrown JavaScript error, observed through its `message` property. -/
structure JSError where
  message : String
deriving DecidableEq, Repr

/-- The abstract operation `ToBoolean`. -/
def truthy : JSVal → Bool
  | .undefined => false
  | .null => false
  | .bool b => b
  | .num n _ => n != 0
  | .str s => s != ""
  | .arr _ => true
  | .obj _ => true

/-- The operator `a || b`. -/
def jsOr (a b : JSVal) : JSVal :=
  if truthy a then a else b

/-- The characters of `WhiteSpace` and `LineTerminator`, which `trim` and the
string-to-number conversion strip. -/
def isJSWhiteSpace (c : Char) : Bool :=
  let n := c.toNat
  n == 0x09 || n == 0x0A || n == 0x0B || n == 0x0C || n == 0x0D || n == 0x20 ||
  n == 0xA0 || n == 0x1680 || (0x2000 ≤ n && n ≤ 0x200A) || n == 0x2028 ||
  n == 0x2029 || n == 0x202F || n == 0x205F || n == 0x3000 || n == 0xFEFF

/-- White space removed from the front of a character list. -/
def trimStart (cs : List Char) : List Char :=
  cs.dropWhile isJSWhiteSpace

/-- White space removed from the back of a character list. -/
def trimEnd (cs : List Char) : List Char :=
  (cs.reverse.dropWhile isJSWhiteSpace).reverse

/-- The method `String.prototype.trim`. -/
def jsTrim (s : String) : String :=
  String.mk (trimEnd (trimStart s.data))

/-- The `TypeError` that V8 raises when an object has no callable conversion
method left: parsed JSON cannot hold a function, so an own `toString` property
hides `Object.prototype.toString` and neither `valueOf` nor `toString` yields a
primitive. -/
def cannotConvert : JSError :=
  ⟨"Cannot convert object to primitive value"⟩

/-- Own property lookup on the property list of a parsed object; when a key was
written twice the later one holds, as in `JSON.parse`. -/
def lookupField (fields : List (String × JSVal)) (key : String) : Option JSVal :=
  fields.reverse.lookup key

/-- Whether the property list has an own property of that name. -/
def hasField (fields : List (String × JSVal)) (key : String) : Bool :=
  (lookupField fields key).isSome

mutual
/-- The abstract operation `ToString`, as a template literal applies it. -/
def toStr : JSVal → Except JSError String
  | .undefined => .ok "undefined"
  | .null => .ok "null"
  | .bool true => .ok "true"
  | .bool false => .ok "false"
  | .num n _ => .ok (toString n)
  | .str s => .ok s
  | .arr xs => joinElems xs
  | .obj fields => if hasField fields "toString" then .error cannotConvert else .ok "[object Object]"
/-- One element inside `join`: `undefined` and `null` print as nothing. -/
def elemStr : JSVal → Except JSError String
  | .undefined => .ok ""
  | .null => .ok ""
  | .bool true => .ok "true"
  | .bool false => .ok "false"
  | .num n _ => .ok (toString n)
  | .str s => .ok s
  | .arr xs => joinElems xs
  | .obj fields => if hasField fields "toString" then .error cannotConvert else .ok "[object Object]"
/-- The method `Array.prototype.join` with the separator `,`. -/
def joinElems : List JSVal → Except JSError String
  | [] => .ok ""
  | x :: rest =>
    match elemStr x with
    | .error e => .error e
    | .ok s =>
      match joinTail rest with
      | .error e => .error e
      | .ok t => .ok (s ++ t)
/-- The elements after the first one, each behind its separator. -/
def joinTail : List JSVal → Except JSError String
  | [] => .ok ""
  | x :: rest =>
    match elemStr x with
    | .error e => .error e
    | .ok s =>
      match joinTail rest with
      | .error e => .error e
      | .ok t => .ok ("," ++ s ++ t)
end

/-! ## Numbers from strings: the comparison `x > 0` -/

/-- The value of a run of decimal digits. -/
def digitsValue (ds : List Char) : Nat :=
  ds.foldl (fun acc c => 10 * acc + (c.toNat - 48)) 0

/-- The exponent part of a decimal literal: nothing, or `e`/`E`, an optional
sign and at least one digit.  `none` when the text is not an exponent part. -/
def exponentPart : List Char → Option Int
  | [] => some 0
  | c :: rest =>
    if c == 'e' || c == 'E' then
      match rest with
      | '+' :: ds => if ds != [] && ds.all Char.isDigit then some (digitsValue ds) else none
      | '-' :: ds => if ds != [] && ds.all Char.isDigit then some (-(digitsValue ds : Int)) else none
      | ds => if ds != [] && ds.all Char.isDigit then some (digitsValue ds) else none
    else none

/-- Whether the decimal `m * 10 ^ e` rounds to a double above zero: it does
unless it is at most `2 ^ (-1075)`, half the smallest subnormal. -/
def roundsAboveZero (m : Nat) (e : Int) : Bool :=
  m != 0 && (decide (0 ≤ e) || decide (10 ^ (-e).toNat < m * 2 ^ 1075))

/-- Whether an unsigned decimal literal of the string-to-number grammar
(`Infinity`, `12`, `12.`, `12.5`, `.5`, each with an optional exponent) denotes a
number above zero.  Text outside the grammar is `NaN`, which is not above zero. -/
def unsignedDecimalGtZero (cs : List Char) : Bool :=
  if cs == "Infinity".data then true
  else
    let intDigits := cs.takeWhile Char.isDigit
    let afterInt := cs.dropWhile Char.isDigit
    let fracDigits :=
      match afterInt with
      | '.' :: r => r.takeWhile Char.isDigit
      | _ => []
    let afterFrac :=
      match afterInt with
      | '.' :: r => r.dropWhile Char.isDigit
      | r => r
    if intDigits == [] && fracDigits == [] then false
    else
      match exponentPart afterFrac with
      | none => false
      | some e => roundsAboveZero (digitsValue (intDigits ++ fracDigits)) (e - fracDigits.length)

/-- Whether a character is a digit of the given radix (16, 8 or 2). -/
def isRadixDigit (radix : Nat) (c : Char) : Bool :=
  if radix == 16 then c.isDigit || ('a' ≤ c && c ≤ 'f') || ('A' ≤ c && c ≤ 'F')
  else if radix == 8 then '0' ≤ c && c ≤ '7'
  else c == '0' || c == '1'

/-- Whether the digits of a `0x`, `0o` or `0b` literal denote a number above
zero; without digits, or with a foreign character, the text is `NaN`. -/
def radixGtZero (radix : Nat) (ds : List Char) : Bool :=
  ds != [] && ds.all (isRadixDigit radix) && ds.any (fun c => c != '0')

/-- The test `ToNumber(s) > 0` on a string: white space is stripped, the empty
string is `0`, a sign is allowed on decimal literals only. -/
def strGtZero (s : String) : Bool :=
  match trimEnd (trimStart s.data) with
  | [] => false
  | '0' :: 'x' :: ds => radixGtZero 16 ds
  | '0' :: 'X' :: ds => radixGtZero 16 ds
  | '0' :: 'o' :: ds => radixGtZero 8 ds
  | '0' :: 'O' :: ds => radixGtZero 8 ds
  | '0' :: 'b' :: ds => radixGtZero 2 ds
  | '0' :: 'B' :: ds => radixGtZero 2 ds
  | '+' :: cs => unsignedDecimalGtZero cs
  | '-' :: _ => false
  | cs => unsignedDecimalGtZero cs

/-- The comparison `x > 0`: `x` is converted with `ToNumber` (an array or an
object first to its string), which throws on an object that cannot be
converted; `NaN` is not above zero. -/
def jsGtZero : JSVal → Except JSError Bool
  | .undefined => .ok false
  | .null => .ok false
  | .bool b => .ok b
  | .num n _ => .ok (decide (0 < n))
  | .str s => .ok (strGtZero s)
  | .arr xs =>
    match joinElems xs with
    | .error e => .error e
    | .ok s => .ok (strGtZero s)
  | .obj fields => if hasField fields "toString" then .error cannotConvert else .ok false

/-! ## Property reads -/

/-- The number of UTF-16 code units of a string, its JavaScript `length`. -/
def utf16Length (s : String) : Nat :=
  (s.data.map (fun c => if c.toNat < 0x10000 then 1 else 2)).sum

/-- The number that a `length` read gives.  A JavaScript array has fewer than
`2 ^ 32` elements and a string fewer than `2 ^ 53` code units, so the cap at
the largest safe integer is never met by a value that exists. -/
def lengthNumber (k : Nat) : JSVal :=
  .num ((min k 9007199254740991 : Nat) : Int)
    (by rw [Int.natAbs_ofNat]; exact Nat.min_le_right _ _)

/-- The `TypeError` of V8 for a property read on `undefined` or `null`. -/
def cannotRead (base key : String) : JSError :=
  ⟨"Cannot read properties of " ++ base ++ " (reading \x27" ++ key ++ "\x27)"⟩

/-- The property read `v.key` for the names the handlers read (`promptText`,
`model`, `error`, `message`, `choices`, `length`, `content`), none of which
lives on a prototype except `length`: an own property of an object, the length
of an array or a string, `undefined` elsewhere, and a `TypeError` on
`undefined` and `null`. -/
def getProp (v : JSVal) (key : String) : Except JSError JSVal :=
  match v with
  | .undefined => .error (cannotRead "undefined" key)
  | .null => .error (cannotRead "null" key)
  | .bool _ => .ok .undefined
  | .num _ _ => .ok .undefined
  | .str s => if key == "length" then .ok (lengthNumber (utf16Length s)) else .ok .undefined
  | .arr xs => if key == "length" then .ok (lengthNumber xs.length) else .ok .undefined
  | .obj fields => .ok ((lookupField fields key).getD .undefined)

/-- The element read `v[0]`: the first element of an array, the first character
of a string (for a character outside the basic plane JavaScript gives its first
code unit; the handlers only read `.message` of it, which is `undefined` for
every string), the own property `0` of an object. -/
def getIndex0 (v : JSVal) : Except JSError JSVal :=
  match v with
  | .undefined => .error (cannotRead "undefined" "0")
  | .null => .error (cannotRead "null" "0")
  | .bool _ => .ok .undefined
  | .num _ _ => .ok .undefined
  | .str s =>
    match s.data with
    | [] => .ok .undefined
    | c :: _ => .ok (.str (String.singleton c))
  | .arr xs => .ok (xs.headD .undefined)
  | .obj fields => .ok ((lookupField fields "0").getD .undefined)

/-- The `TypeError` of V8 for destructuring `req.body` when it is `undefined`
or `null`. -/
def cannotDestructure (whatItIs : String) : JSError :=
  ⟨"Cannot destructure property \x27promptText\x27 of \x27req.body\x27 as it is " ++ whatItIs ++ "."⟩

/-- The statement `const { promptText, model: clientModel } = req.body`. -/
def destructureBody (body : JSVal) : Except JSError (JSVal × JSVal) :=
  match body with
  | .undefined => .error (cannotDestructure "undefined")
  | .null => .error (cannotDestructure "null")
  | b =>
    match getProp b "promptText", getProp b "model" with
    | .ok promptText, .ok clientModel => .ok (promptText, clientModel)
    | .error e, _ => .error e
    | _, .error e => .error e

/-- The call `generatedText.trim()` on a truthy value: only a string has the
method; on a number, `true`, an array or an object `trim` is not a function. -/
def callTrim (generatedText : JSVal) : Except JSError JSVal :=
  match generatedText with
  | .str s => .ok (.str (jsTrim s))
  | _ => .error ⟨"generatedText.trim is not a function"⟩

/-! ## The HTTP data model -/

/-- The inbound request as the handler reads it: `req.method` and `req.body`. -/
structure Request where
  method : String
  body : JSVal

/-- What the handler sent as the response body: text through `res.end`, or a
value through `res.json`. -/
inductive ResBody where
  | text (s : String)
  | json (v : JSVal)

/-- The response the handler produced: the status, the headers it set with
`res.setHeader` (a header holds a list of values) and the body. -/
structure Response where
  status : Nat
  headers : List (String × List String)
  body : ResBody

/-- One entry of `messages` in the outbound chat request. -/
structure Message where
  role : String
  content : JSVal

/-- The object `payload` that is serialised into the outbound request:
`temperature` and `max_tokens` are absent where the handler leaves them out. -/
structure ChatRequest where
  model : JSVal
  messages : List Message
  temperature : Option ℚ
  max_tokens : Option Nat

/-- The outbound call the handler hands to `fetch`; `body` is the payload that
`JSON.stringify` serialises. -/
structure FetchRequest where
  url : String
  method : String
  headers : List (String × String)
  body : ChatRequest

/-- What the upstream did: `fetch` rejected, or it resolved to a response with a
status, a status text and a body that `response.json()` either parses or
rejects. -/
inductive FetchOutcome where
  | rejected (e : JSError)
  | response (status : Nat) (statusText : String) (json : Except JSError JSVal)

/-- The getter `response.ok`: the status is in the range 200 to 299. -/
def statusOk (status : Nat) : Bool :=
  decide (200 ≤ status) && decide (status ≤ 299)

/-- The code before the outbound call ends in a response or in that call. -/
inductive Step where
  | respond (r : Response)
  | call (q : FetchRequest)

/-- A finished invocation: the response and the requests that were handed to
`fetch`. -/
structure Run where
  response : Response
  calls : List FetchRequest

/-- The value of `process.env.NAME`: `undefined` when unset, a string otherwise. -/
def envValue (v : Option String) : JSVal :=
  match v with
  | none => .undefined
  | some s => .str s

/-- The call `res.status(status).json(value)`. -/
def jsonResponse (status : Nat) (value : JSVal) : Response :=
  ⟨status, [], .json value⟩

/-! ## The `fetch` of the platform

`fetch` is Node's, not the repository's.  Before anything is sent it converts
every header value to a `ByteString`, strips the HTTP white space around it and
checks it; the HTTP client then refuses the control characters that are left.
Each refusal rejects the promise with a `TypeError`, worded as in undici. -/

/-- The first UTF-16 code unit above 255 of a text, with its index: where the
conversion to a `ByteString` stops. -/
def firstNonByte : List Char → Nat → Option (Nat × Nat)
  | [], _ => none
  | c :: cs, index =>
    if c.toNat ≤ 255 then firstNonByte cs (index + 1)
    else if c.toNat < 0x10000 then some (index, c.toNat)
    else some (index, 0xD800 + (c.toNat - 0x10000) / 1024)

/-- The HTTP white space that is stripped from both ends of a header value. -/
def isHttpWhiteSpace (c : Char) : Bool :=
  c.toNat == 0x09 || c.toNat == 0x0A || c.toNat == 0x0D || c.toNat == 0x20

/-- The header value without its leading and trailing HTTP white space. -/
def normalizeHeaderValue (value : String) : String :=
  String.mk ((value.data.dropWhile isHttpWhiteSpace).reverse.dropWhile isHttpWhiteSpace).reverse

/-- A normalised text is a header value when it holds no NUL, LF or CR. -/
def isHeaderValue (value : String) : Bool :=
  value.data.all (fun c => c.toNat != 0x00 && c.toNat != 0x0A && c.toNat != 0x0D)

/-- The characters that the HTTP client lets through in a header value: the tab
and the codes 0x20 to 0x7E and 0x80 to 0xFF. -/
def isHeaderChar (c : Char) : Bool :=
  c.toNat == 0x09 || (decide (0x20 ≤ c.toNat) && decide (c.toNat ≤ 0x7E)) ||
    (decide (0x80 ≤ c.toNat) && decide (c.toNat ≤ 0xFF))

/-- The failure with which `fetch` rejects for a header value, `none` when it
accepts the value.  The message for a value that is not a header value quotes
the value. -/
def headerValueError (value : String) : Option JSError :=
  match firstNonByte value.data 0 with
  | some (index, code) =>
    some ⟨"Cannot convert argument to a ByteString because the character at index "
      ++ toString index ++ " has a value of " ++ toString code ++ " which is greater than 255."⟩
  | none =>
    let normalized := normalizeHeaderValue value
    if !isHeaderValue normalized then
      some ⟨"Headers.append: \x22" ++ normalized ++ "\x22 is an invalid header value."⟩
    else if !normalized.data.all isHeaderChar then some ⟨"fetch failed"⟩
    else none

/-- The first failure among the header values of a request. -/
def headersError : List (String × String) → Option JSError
  | [] => none
  | (_, value) :: rest =>
    match headerValueError value with
    | some e => some e
    | none => headersError rest

/-- What `await fetch(...)` yields for the request `q` when the network, once the
request is sent, does `network`: a request with a refused header is never sent. -/
def fetch (q : FetchRequest) (network : FetchOutcome) : FetchOutcome :=
  match headersError q.headers with
  | some e => .rejected e
  | none => network

/-! ## Code shared in text by both handlers

Both files spell out the same expressions for the upstream error detail, for
the test on the upstream result and for the `catch` block; they are embedded
once. -/

/-- The expression
`errorData.error && errorData.error.message ? errorData.error.message : (errorData.message || statusText)`. -/
def errorMessageDetail (errorData : JSVal) (statusText : String) : Except JSError JSVal :=
  match getProp errorData "error" with
  | .error e => .error e
  | .ok err =>
    if truthy err then
      match getProp err "message" with
      | .error e => .error e
      | .ok message =>
        if truthy message then .ok message
        else
          match getProp errorData "message" with
          | .error e => .error e
          | .ok m => .ok (jsOr m (.str statusText))
    else
      match getProp errorData "message" with
      | .error e => .error e
      | .ok m => .ok (jsOr m (.str statusText))

/-- The value `await response.json().catch(() => (\x7b message: response.statusText \x7d))`. -/
def errorDataOf (json : Except JSError JSVal) (statusText : String) : JSVal :=
  match json with
  | .ok v => v
  | .error _ => .obj [("message", .str statusText)]

/-- The truth value of the condition
`result.choices && result.choices.length > 0 && result.choices[0].message && result.choices[0].message.content`,
read left to right with the short circuit of `&&`. -/
def hasContent (result : JSVal) : Except JSError Bool :=
  match getProp result "choices" with
  | .error e => .error e
  | .ok choices =>
    if !truthy choices then .ok false
    else
      match getProp choices "length" with
      | .error e => .error e
      | .ok length =>
        match jsGtZero length with
        | .error e => .error e
        | .ok false => .ok false
        | .ok true =>
          match getIndex0 choices with
          | .error e => .error e
          | .ok first =>
            match getProp first "message" with
            | .error e => .error e
            | .ok message =>
              if !truthy message then .ok false
              else
                match getProp message "content" with
                | .error e => .error e
                | .ok content => .ok (truthy content)

/-- The read `result.choices[0].message.content`. -/
def generatedTextOf (result : JSVal) : Except JSError JSVal :=
  match getProp result "choices" with
  | .error e => .error e
  | .ok choices =>
    match getIndex0 choices with
    | .error e => .error e
    | .ok first =>
      match getProp first "message" with
      | .error e => .error e
      | .ok message => getProp message "content"

/-- The `catch` block: `res.status(500).json(\x7b error: error.message || fallback \x7d)`. -/
def catchBlock (error : JSError) : Response :=
  jsonResponse 500 (.obj [("error", jsOr (.str error.message) (.str "خطای داخلی سرور در تابع بدون سرور."))])

/-- The response of the method check: `res.setHeader(\x27Allow\x27, [\x27POST\x27])` and
`res.status(405).end(...)`. -/
def methodNotAllowed (method : String) : Response :=
  ⟨405, [("Allow", ["POST"])], .text ("Method " ++ method ++ " Not Allowed")⟩

/-! ## The OpenAI handler, `src/generateText.js` -/

namespace OpenAI

/-- The endpoint `openaiApiUrl`. -/
def openaiApiUrl : String :=
  "https://api.openai.com/v1/chat/completions"

/-- The content of the fixed system message. -/
def systemContent : String :=
  "شما یک دستیار هوش مصنوعی مفید و سازنده هستید که فقط و فقط به زبان فارسی روان و معیار پاسخ می‌دهد. لطفاً از کلمات انگلیسی استفاده نکنید، مگر اینکه خود کلمه (مثلاً یک نام خاص) اصالتاً انگلیسی باشد و معادل فارسی رایجی نداشته باشد. در تمام موارد دیگر، پاسخ باید ۱۰۰٪ فارسی باشد. پاسخ‌های شما باید مستقیماً به پرسش کاربر باشد و بدون اضافه کردن جملات مقدماتی یا پایانی غیرضروری باشد."

/-- The object `payload`. -/
def payload (modelToUse userContent : JSVal) : ChatRequest :=
  ⟨modelToUse, [⟨"system", .str systemContent⟩, ⟨"user", userContent⟩], some (7 / 10), some 500⟩

/-- The `try` block up to the call of `fetch`: the body fields, the validation,
the key check, the model choice and the outbound request. -/
def tryBefore (req : Request) (OPENAI_API_KEY_SECURE : Option String) : Except JSError Step :=
  match destructureBody req.body with
  | .error e => .error e
  | .ok (promptText, clientModel) =>
    if !truthy promptText then
      .ok (.respond (jsonResponse 400 (.obj [("error", .str "متن prompt (درخواست) ارسال نشده است.")])))
    else
      let OPENAI_API_KEY := envValue OPENAI_API_KEY_SECURE
      if !truthy OPENAI_API_KEY then
        .ok (.respond (jsonResponse 500 (.obj [("error", .str "پیکربندی سرور برای کلید OpenAI API صحیح نیست. لطفاً با مدیر سیستم تماس بگیرید.")])))
      else
        let modelToUse := jsOr clientModel (.str "gpt-3.5-turbo")
        match toStr OPENAI_API_KEY with
        | .error e => .error e
        | .ok key =>
          .ok (.call ⟨openaiApiUrl, "POST",
            [("Content-Type", "application/json"), ("Authorization", "Bearer " ++ key)],
            payload modelToUse promptText⟩)

/-- The `try` block from the awaited `fetch` on: the upstream failure mapping
and the parsing of a successful answer. -/
def tryAfter (openaiResponse : FetchOutcome) : Except JSError Response :=
  match openaiResponse with
  | .rejected e => .error e
  | .response status statusText json =>
    if !statusOk status then
      let errorData := errorDataOf json statusText
      match errorMessageDetail errorData statusText with
      | .error e => .error e
      | .ok detail =>
        match toStr detail with
        | .error e => .error e
        | .ok text => .ok (jsonResponse status (.obj [("error", .str ("خطا در ارتباط با OpenAI API: " ++ text))]))
    else
      match json with
      | .error e => .error e
      | .ok result =>
        match hasContent result with
        | .error e => .error e
        | .ok true =>
          match generatedTextOf result with
          | .error e => .error e
          | .ok generatedText =>
            match callTrim generatedText with
            | .error e => .error e
            | .ok trimmed => .ok (jsonResponse 200 (.obj [("generated_text", trimmed)]))
        | .ok false =>
          .ok (jsonResponse 500 (.obj [("error", .str "پاسخ نامعتبر از OpenAI API دریافت شد.")]))

/-- The exported `handler`: the method check, then the `try` block around the
single awaited `fetch`, then the `catch` block. -/
def handler (req : Request) (OPENAI_API_KEY_SECURE : Option String) (upstream : FetchOutcome) : Run :=
  if req.method != "POST" then
    ⟨methodNotAllowed req.method, []⟩
  else
    match tryBefore req OPENAI_API_KEY_SECURE with
    | .error e => ⟨catchBlock e, []⟩
    | .ok (.respond r) => ⟨r, []⟩
    | .ok (.call q) =>
      match tryAfter upstream with
      | .error e => ⟨catchBlock e, [q]⟩
      | .ok r => ⟨r, [q]⟩

/-- The handler on the platform: the outcome of its `fetch` is what the platform
makes of the request the handler builds and of what the network does. -/
def serve (req : Request) (OPENAI_API_KEY_SECURE : Option String) (network : FetchOutcome) : Run :=
  match tryBefore req OPENAI_API_KEY_SECURE with
  | .ok (.call q) => handler req OPENAI_API_KEY_SECURE (fetch q network)
  | _ => handler req OPENAI_API_KEY_SECURE network

end OpenAI

/-! ## The Groq handler, `src/SafeMind/api/generateText.js` -/

namespace Groq

/-- The endpoint `groqApiUrl`. -/
def groqApiUrl : String :=
  "https://api.groq.com/openai/v1/chat/completions"

/-- The content of the fixed system message. -/
def systemContent : String :=
  "شما یک دستیار هستید که فقط و فقط به زبان فارسی پاسخ می‌دهد و از کلمات انگلیسی استفاده نمی‌کند مگر در موارد ضروری برای اسامی خاص."

/-- The fixed clause that the template literal `fullPrompt` puts after the
prompt and one space. -/
def languageClause : String :=
  "لطفاً پاسخ را فقط و فقط به زبان فارسی روان و معیار ارائه دهید و از کلمات انگلیسی استفاده نکنید، مگر اینکه خود کلمه (مثلاً یک نام خاص) اصالتاً انگلیسی باشد و معادل فارسی رایجی نداشته باشد. در تمام موارد دیگر، پاسخ باید ۱۰۰٪ فارسی باشد."

/-- The object `payload`. -/
def payload (modelToUse userContent : JSVal) : ChatRequest :=
  ⟨modelToUse, [⟨"system", .str systemContent⟩, ⟨"user", userContent⟩], none, none⟩

/-- The `try` block up to the call of `fetch`: the body fields, the validation,
the key check, the model choice and the outbound request. -/
def tryBefore (req : Request) (GROQ_API_KEY_SECURE : Option String) : Except JSError Step :=
  match destructureBody req.body with
  | .error e => .error e
  | .ok (promptText, clientModel) =>
    if !truthy promptText then
      .ok (.respond (jsonResponse 400 (.obj [("error", .str "متن prompt ارسال نشده است.")])))
    else
      let GROQ_API_KEY := envValue GROQ_API_KEY_SECURE
      if !truthy GROQ_API_KEY then
        .ok (.respond (jsonResponse 500 (.obj [("error", .str "پیکربندی سرور برای کلید API صحیح نیست.")])))
      else
        let modelToUse := jsOr clientModel (.str "llama3-8b-8192")
        match toStr promptText with
        | .error e => .error e
        | .ok promptString =>
          let fullPrompt := promptString ++ " " ++ languageClause
          match toStr GROQ_API_KEY with
          | .error e => .error e
          | .ok key =>
            .ok (.call ⟨groqApiUrl, "POST",
              [("Content-Type", "application/json"), ("Authorization", "Bearer " ++ key)],
              payload modelToUse (.str fullPrompt)⟩)

/-- The `try` block from the awaited `fetch` on: the upstream failure mapping
and the parsing of a successful answer. -/
def tryAfter (groqResponse : FetchOutcome) : Except JSError Response :=
  match groqResponse with
  | .rejected e => .error e
  | .response status statusText json =>
    if !statusOk status then
      let errorData := errorDataOf json statusText
      match errorMessageDetail errorData statusText with
      | .error e => .error e
      | .ok detail =>
        match toStr detail with
        | .error e => .error e
        | .ok text => .ok (jsonResponse status (.obj [("error", .str ("خطا در ارتباط با Groq API: " ++ text))]))
    else
      match json with
      | .error e => .error e
      | .ok result =>
        match hasContent result with
        | .error e => .error e
        | .ok true =>
          match generatedTextOf result with
          | .error e => .error e
          | .ok generatedText =>
            match callTrim generatedText with
            | .error e => .error e
            | .ok trimmed => .ok (jsonResponse 200 (.obj [("generated_text", trimmed)]))
        | .ok false =>
          .ok (jsonResponse 500 (.obj [("error", .str "پاسخ نامعتبر از Groq API دریافت شد.")]))

/-- The exported `handler`: the method check, then the `try` block around the
single awaited `fetch`, then the `catch` block. -/
def handler (req : Request) (GROQ_API_KEY_SECURE : Option String) (upstream : FetchOutcome) : Run :=
  if req.method != "POST" then
    ⟨methodNotAllowed req.method, []⟩
  else
    match tryBefore req GROQ_API_KEY_SECURE with
    | .error e => ⟨catchBlock e, []⟩
    | .ok (.respond r) => ⟨r, []⟩
    | .ok (.call q) =>
      match tryAfter upstream with
      | .error e => ⟨catchBlock e, [q]⟩
      | .ok r => ⟨r, [q]⟩

/-- The handler on the platform: the outcome of its `fetch` is what the platform
makes of the request the handler builds and of what the network does. -/
def serve (req : Request) (GROQ_API_KEY_SECURE : Option String) (network : FetchOutcome) : Run :=
  match tryBefore req GROQ_API_KEY_SECURE with
  | .ok (.call q) => handler req GROQ_API_KEY_SECURE (fetch q network)
  | _ => handler req GROQ_API_KEY_SECURE network

end Groq

/-! ## Properties -/

/-- Reading `promptText` off a body succeeds only on a body that can be
destructured, and then `model` is read as well. -/
theorem destructureBody_of_promptText (body p : JSVal)
    (h : getProp body "promptText" = .ok p) :
    ∃ m, getProp body "model" = .ok m ∧ destructureBody body = .ok (p, m) := by
  cases body <;> simp_all [getProp, destructureBody]

/-- C1: a request whose method is not POST gets status 405, the header
`Allow: POST` and the text `Method M Not Allowed` from both handlers, whatever
its body, the configured key and the upstream, and no outbound call is made. -/
theorem method_not_allowed (req : Request) (key : Option String) (upstream : FetchOutcome)
    (h : req.method ≠ "POST") :
    OpenAI.handler req key upstream
        = ⟨⟨405, [("Allow", ["POST"])], .text ("Method " ++ req.method ++ " Not Allowed")⟩, []⟩ ∧
      Groq.handler req key upstream
        = ⟨⟨405, [("Allow", ["POST"])], .text ("Method " ++ req.method ++ " Not Allowed")⟩, []⟩ := by
  simp [OpenAI.handler, Groq.handler, h, methodNotAllowed]

/-- C1 at a GET request with a prompt in its body and a configured key. -/
theorem method_not_allowed_witness :
    "GET" ≠ "POST" ∧
      OpenAI.handler ⟨"GET", .obj [("promptText", .str "سلام")]⟩ (some "sk-test")
          (.response 200 "OK" (.ok .null))
        = ⟨⟨405, [("Allow", ["POST"])], .text ("Method " ++ "GET" ++ " Not Allowed")⟩, []⟩ ∧
      Groq.handler ⟨"GET", .obj [("promptText", .str "سلام")]⟩ (some "sk-test")
          (.response 200 "OK" (.ok .null))
        = ⟨⟨405, [("Allow", ["POST"])], .text ("Method " ++ "GET" ++ " Not Allowed")⟩, []⟩ :=
  ⟨by decide,
    method_not_allowed ⟨"GET", .obj [("promptText", .str "سلام")]⟩ (some "sk-test")
      (.response 200 "OK" (.ok .null)) (by decide)⟩

/-- C2, the failing input: a POST request without a body (`req.body` is
`undefined`, or `null` for the JSON text `null`) has no `promptText`, yet both
handlers answer 500 with the text of the `TypeError` of the destructuring, not
400; no outbound call is made. -/
theorem post_without_body_gives_500 (key : Option String) (upstream : FetchOutcome) :
    OpenAI.handler ⟨"POST", .undefined⟩ key upstream
        = ⟨⟨500, [], .json (.obj [("error", .str
            "Cannot destructure property \x27promptText\x27 of \x27req.body\x27 as it is undefined.")])⟩, []⟩ ∧
      Groq.handler ⟨"POST", .undefined⟩ key upstream
        = ⟨⟨500, [], .json (.obj [("error", .str
            "Cannot destructure property \x27promptText\x27 of \x27req.body\x27 as it is undefined.")])⟩, []⟩ ∧
      OpenAI.handler ⟨"POST", .null⟩ key upstream
        = ⟨⟨500, [], .json (.obj [("error", .str
            "Cannot destructure property \x27promptText\x27 of \x27req.body\x27 as it is null.")])⟩, []⟩ ∧
      Groq.handler ⟨"POST", .null⟩ key upstream
        = ⟨⟨500, [], .json (.obj [("error", .str
            "Cannot destructure property \x27promptText\x27 of \x27req.body\x27 as it is null.")])⟩, []⟩ :=
  ⟨rfl, rfl, rfl, rfl⟩

/-- Where the body can be read (it is neither `undefined` nor `null`) and its
`promptText` is missing or falsy, both handlers answer 400 with an `error`
field and make no outbound call, whatever the model field and the key. -/
theorem missing_prompt_gives_400 (req : Request) (key : Option String)
    (upstream : FetchOutcome) (p : JSVal)
    (hm : req.method = "POST") (hp : getProp req.body "promptText" = .ok p)
    (hf : truthy p = false) :
    OpenAI.handler req key upstream
        = ⟨⟨400, [], .json (.obj [("error", .str "متن prompt (درخواست) ارسال نشده است.")])⟩, []⟩ ∧
      Groq.handler req key upstream
        = ⟨⟨400, [], .json (.obj [("error", .str "متن prompt ارسال نشده است.")])⟩, []⟩ := by
  obtain ⟨m, -, hd⟩ := destructureBody_of_promptText req.body p hp
  simp [OpenAI.handler, Groq.handler, OpenAI.tryBefore, Groq.tryBefore, hm, hd, hf, jsonResponse]

/-- The 400 answer at a body without `promptText` and at an empty one. -/
theorem missing_prompt_gives_400_witness :
    (OpenAI.handler ⟨"POST", .obj [("model", .str "gpt-4o")]⟩ none (.rejected ⟨"unreachable"⟩)
        = ⟨⟨400, [], .json (.obj [("error", .str "متن prompt (درخواست) ارسال نشده است.")])⟩, []⟩ ∧
      Groq.handler ⟨"POST", .obj [("model", .str "gpt-4o")]⟩ none (.rejected ⟨"unreachable"⟩)
        = ⟨⟨400, [], .json (.obj [("error", .str "متن prompt ارسال نشده است.")])⟩, []⟩) ∧
    (OpenAI.handler ⟨"POST", .obj [("promptText", .str "")]⟩ (some "sk-test") (.rejected ⟨"unreachable"⟩)
        = ⟨⟨400, [], .json (.obj [("error", .str "متن prompt (درخواست) ارسال نشده است.")])⟩, []⟩ ∧
      Groq.handler ⟨"POST", .obj [("promptText", .str "")]⟩ (some "sk-test") (.rejected ⟨"unreachable"⟩)
        = ⟨⟨400, [], .json (.obj [("error", .str "متن prompt ارسال نشده است.")])⟩, []⟩) :=
  ⟨missing_prompt_gives_400 ⟨"POST", .obj [("model", .str "gpt-4o")]⟩ none
      (.rejected ⟨"unreachable"⟩) .undefined rfl rfl rfl,
    missing_prompt_gives_400 ⟨"POST", .obj [("promptText", .str "")]⟩ (some "sk-test")
      (.rejected ⟨"unreachable"⟩) (.str "") rfl rfl rfl⟩

/-- C5: a POST request with a truthy (for a string: non-empty) `promptText`
gets status 500 with an `error` field from both handlers when the credential
variable is unset, and no outbound call is made. -/
theorem unset_key_gives_500 (req : Request) (upstream : FetchOutcome) (p : JSVal)
    (hm : req.method = "POST") (hp : getProp req.body "promptText" = .ok p)
    (ht : truthy p = true) :
    OpenAI.handler req none upstream
        = ⟨⟨500, [], .json (.obj [("error", .str "پیکربندی سرور برای کلید OpenAI API صحیح نیست. لطفاً با مدیر سیستم تماس بگیرید.")])⟩, []⟩ ∧
      Groq.handler req none upstream
        = ⟨⟨500, [], .json (.obj [("error", .str "پیکربندی سرور برای کلید API صحیح نیست.")])⟩, []⟩ := by
  obtain ⟨m, -, hd⟩ := destructureBody_of_promptText req.body p hp
  have hk : truthy (envValue none) = false := rfl
  simp [OpenAI.handler, Groq.handler, OpenAI.tryBefore, Groq.tryBefore, hm, hd, ht, hk, jsonResponse]

/-- C5 at the prompt `سلام` with no key configured. -/
theorem unset_key_gives_500_witness :
    OpenAI.handler ⟨"POST", .obj [("promptText", .str "سلام")]⟩ none (.rejected ⟨"unreachable"⟩)
        = ⟨⟨500, [], .json (.obj [("error", .str "پیکربندی سرور برای کلید OpenAI API صحیح نیست. لطفاً با مدیر سیستم تماس بگیرید.")])⟩, []⟩ ∧
      Groq.handler ⟨"POST", .obj [("promptText", .str "سلام")]⟩ none (.rejected ⟨"unreachable"⟩)
        = ⟨⟨500, [], .json (.obj [("error", .str "پیکربندی سرور برای کلید API صحیح نیست.")])⟩, []⟩ :=
  unset_key_gives_500 ⟨"POST", .obj [("promptText", .str "سلام")]⟩ (.rejected ⟨"unreachable"⟩)
    (.str "سلام") rfl rfl rfl

/-- A configured non-empty key is truthy. -/
theorem truthy_envValue_some (k : String) (hk : k ≠ "") : truthy (envValue (some k)) = true := by
  simp [envValue, truthy, hk]

/-- The OpenAI handler on a POST request with a truthy prompt and a non-empty
key: one outbound call, and the response is what the code after it makes of
the upstream outcome. -/
theorem openai_handler_valid (req : Request) (k : String) (upstream : FetchOutcome) (p m : JSVal)
    (hm : req.method = "POST") (hp : getProp req.body "promptText" = .ok p)
    (hmod : getProp req.body "model" = .ok m) (ht : truthy p = true) (hk : k ≠ "") :
    OpenAI.handler req (some k) upstream =
      ⟨match OpenAI.tryAfter upstream with
        | .error e => catchBlock e
        | .ok r => r,
       [⟨OpenAI.openaiApiUrl, "POST",
          [("Content-Type", "application/json"), ("Authorization", "Bearer " ++ k)],
          OpenAI.payload (if truthy m = true then m else .str "gpt-3.5-turbo") p⟩]⟩ := by
  obtain ⟨m2, hmod2, hd⟩ := destructureBody_of_promptText req.body p hp
  have hmm : m2 = m := by rw [hmod] at hmod2; cases hmod2; rfl
  subst hmm
  have hkey := truthy_envValue_some k hk
  have hts : toStr (envValue (some k)) = .ok k := rfl
  simp only [OpenAI.handler, OpenAI.tryBefore, hm, hd, ht, hkey, hts, jsOr]
  cases OpenAI.tryAfter upstream <;> simp

/-- The Groq handler on a POST request with a truthy prompt that converts to the
string `t` and a non-empty key: one outbound call, and the response is what the
code after it makes of the upstream outcome. -/
theorem groq_handler_valid (req : Request) (k : String) (upstream : FetchOutcome) (p m : JSVal)
    (t : String)
    (hm : req.method = "POST") (hp : getProp req.body "promptText" = .ok p)
    (hmod : getProp req.body "model" = .ok m) (ht : truthy p = true) (hs : toStr p = .ok t)
    (hk : k ≠ "") :
    Groq.handler req (some k) upstream =
      ⟨match Groq.tryAfter upstream with
        | .error e => catchBlock e
        | .ok r => r,
       [⟨Groq.groqApiUrl, "POST",
          [("Content-Type", "application/json"), ("Authorization", "Bearer " ++ k)],
          Groq.payload (if truthy m = true then m else .str "llama3-8b-8192")
            (.str (t ++ " " ++ Groq.languageClause))⟩]⟩ := by
  obtain ⟨m2, hmod2, hd⟩ := destructureBody_of_promptText req.body p hp
  have hmm : m2 = m := by rw [hmod] at hmod2; cases hmod2; rfl
  subst hmm
  have hkey := truthy_envValue_some k hk
  have hts : toStr (envValue (some k)) = .ok k := rfl
  simp only [Groq.handler, Groq.tryBefore, hm, hd, ht, hkey, hts, hs, jsOr]
  cases Groq.tryAfter upstream <;> simp

/-- C6, the counterexample: a request that supplies the model value `""` does
not get it passed through; the outbound model is the provider default. -/
theorem supplied_empty_model_is_replaced :
    getProp (.obj [("promptText", .str "سلام"), ("model", .str "")]) "model" = .ok (.str "") ∧
      (OpenAI.handler ⟨"POST", .obj [("promptText", .str "سلام"), ("model", .str "")]⟩
          (some "sk-test") (.rejected ⟨"down"⟩)).calls.map (fun q => q.body.model)
        = [.str "gpt-3.5-turbo"] ∧
      (Groq.handler ⟨"POST", .obj [("promptText", .str "سلام"), ("model", .str "")]⟩
          (some "sk-test") (.rejected ⟨"down"⟩)).calls.map (fun q => q.body.model)
        = [.str "llama3-8b-8192"] ∧
      JSVal.str "gpt-3.5-turbo" ≠ JSVal.str "" ∧ JSVal.str "llama3-8b-8192" ≠ JSVal.str "" :=
  ⟨rfl, rfl, rfl, by simp, by simp⟩

/-- C6 as amended: on a POST request with a non-empty string `promptText` and a
non-empty key, each handler makes one outbound call; its model field is the
value `m` read from the body, unchanged, when `m` is truthy, and the provider
default (`gpt-3.5-turbo`, `llama3-8b-8192`) when `m` is falsy, which covers the
omitted model (`undefined`) and the empty string. -/
theorem outbound_model (req : Request) (k : String) (upstream : FetchOutcome) (s : String)
    (m : JSVal)
    (hm : req.method = "POST") (hp : getProp req.body "promptText" = .ok (.str s))
    (hs : s ≠ "") (hmod : getProp req.body "model" = .ok m) (hk : k ≠ "") :
    (truthy m = true →
      (OpenAI.handler req (some k) upstream).calls.map (fun q => q.body.model) = [m] ∧
      (Groq.handler req (some k) upstream).calls.map (fun q => q.body.model) = [m]) ∧
    (truthy m = false →
      (OpenAI.handler req (some k) upstream).calls.map (fun q => q.body.model)
        = [.str "gpt-3.5-turbo"] ∧
      (Groq.handler req (some k) upstream).calls.map (fun q => q.body.model)
        = [.str "llama3-8b-8192"]) := by
  have ht : truthy (.str s) = true := by simp [truthy, hs]
  rw [openai_handler_valid req k upstream (.str s) m hm hp hmod ht hk,
    groq_handler_valid req k upstream (.str s) m s hm hp hmod ht rfl hk]
  constructor <;> intro h <;> simp [h, OpenAI.payload, Groq.payload]

/-- C6 as amended, at a request that supplies `gpt-4o` and at one that omits
the model. -/
theorem outbound_model_witness :
    ((OpenAI.handler ⟨"POST", .obj [("promptText", .str "سلام"), ("model", .str "gpt-4o")]⟩
          (some "sk-test") (.rejected ⟨"down"⟩)).calls.map (fun q => q.body.model)
        = [.str "gpt-4o"] ∧
      (Groq.handler ⟨"POST", .obj [("promptText", .str "سلام"), ("model", .str "gpt-4o")]⟩
          (some "sk-test") (.rejected ⟨"down"⟩)).calls.map (fun q => q.body.model)
        = [.str "gpt-4o"]) ∧
    ((OpenAI.handler ⟨"POST", .obj [("promptText", .str "سلام")]⟩
          (some "sk-test") (.rejected ⟨"down"⟩)).calls.map (fun q => q.body.model)
        = [.str "gpt-3.5-turbo"] ∧
      (Groq.handler ⟨"POST", .obj [("promptText", .str "سلام")]⟩
          (some "sk-test") (.rejected ⟨"down"⟩)).calls.map (fun q => q.body.model)
        = [.str "llama3-8b-8192"]) :=
  ⟨(outbound_model ⟨"POST", .obj [("promptText", .str "سلام"), ("model", .str "gpt-4o")]⟩
      "sk-test" (.rejected ⟨"down"⟩) "سلام" (.str "gpt-4o") rfl rfl (by decide) rfl
      (by decide)).1 rfl,
    (outbound_model ⟨"POST", .obj [("promptText", .str "سلام")]⟩
      "sk-test" (.rejected ⟨"down"⟩) "سلام" .undefined rfl rfl (by decide) rfl
      (by decide)).2 rfl⟩

/-- C9: on a POST request with a truthy `promptText` `p` and a non-empty key,
the messages of the one outbound chat request are exactly two: a `system`
message whose content is the fixed Persian instruction of the handler, the same
for every request, followed by a `user` message.  In the OpenAI handler the user
content is `p` itself.  In the Groq handler, for a string prompt `s`, the user
content is `s`, one space and the fixed Persian language clause, so `s` is an
initial segment of it. -/
theorem outbound_messages (req : Request) (k : String) (upstream : FetchOutcome) (p : JSVal)
    (hm : req.method = "POST") (hp : getProp req.body "promptText" = .ok p)
    (ht : truthy p = true) (hk : k ≠ "") :
    (OpenAI.handler req (some k) upstream).calls.map (fun q => q.body.messages)
        = [[⟨"system", .str "شما یک دستیار هوش مصنوعی مفید و سازنده هستید که فقط و فقط به زبان فارسی روان و معیار پاسخ می‌دهد. لطفاً از کلمات انگلیسی استفاده نکنید، مگر اینکه خود کلمه (مثلاً یک نام خاص) اصالتاً انگلیسی باشد و معادل فارسی رایجی نداشته باشد. در تمام موارد دیگر، پاسخ باید ۱۰۰٪ فارسی باشد. پاسخ‌های شما باید مستقیماً به پرسش کاربر باشد و بدون اضافه کردن جملات مقدماتی یا پایانی غیرضروری باشد."⟩,
            ⟨"user", p⟩]] ∧
    ∀ s, p = .str s →
      (Groq.handler req (some k) upstream).calls.map (fun q => q.body.messages)
          = [[⟨"system", .str "شما یک دستیار هستید که فقط و فقط به زبان فارسی پاسخ می‌دهد و از کلمات انگلیسی استفاده نمی‌کند مگر در موارد ضروری برای اسامی خاص."⟩,
              ⟨"user", .str (s ++ " " ++ "لطفاً پاسخ را فقط و فقط به زبان فارسی روان و معیار ارائه دهید و از کلمات انگلیسی استفاده نکنید، مگر اینکه خود کلمه (مثلاً یک نام خاص) اصالتاً انگلیسی باشد و معادل فارسی رایجی نداشته باشد. در تمام موارد دیگر، پاسخ باید ۱۰۰٪ فارسی باشد.")⟩]] ∧
        s.data <+: (s ++ " " ++ "لطفاً پاسخ را فقط و فقط به زبان فارسی روان و معیار ارائه دهید و از کلمات انگلیسی استفاده نکنید، مگر اینکه خود کلمه (مثلاً یک نام خاص) اصالتاً انگلیسی باشد و معادل فارسی رایجی نداشته باشد. در تمام موارد دیگر، پاسخ باید ۱۰۰٪ فارسی باشد.").data := by
  obtain ⟨m, hmod, -⟩ := destructureBody_of_promptText req.body p hp
  refine ⟨?_, fun s hs => ⟨?_, ?_⟩⟩
  · rw [openai_handler_valid req k upstream p m hm hp hmod ht hk]
    rfl
  · subst hs
    rw [groq_handler_valid req k upstream (.str s) m s hm hp hmod ht rfl hk]
    rfl
  · simp [String.append_assoc]

/-- C9 at the prompt `سلام`. -/
theorem outbound_messages_witness :
    (OpenAI.handler ⟨"POST", .obj [("promptText", .str "سلام")]⟩ (some "sk-test")
          (.rejected ⟨"down"⟩)).calls.map (fun q => q.body.messages)
        = [[⟨"system", .str "شما یک دستیار هوش مصنوعی مفید و سازنده هستید که فقط و فقط به زبان فارسی روان و معیار پاسخ می‌دهد. لطفاً از کلمات انگلیسی استفاده نکنید، مگر اینکه خود کلمه (مثلاً یک نام خاص) اصالتاً انگلیسی باشد و معادل فارسی رایجی نداشته باشد. در تمام موارد دیگر، پاسخ باید ۱۰۰٪ فارسی باشد. پاسخ‌های شما باید مستقیماً به پرسش کاربر باشد و بدون اضافه کردن جملات مقدماتی یا پایانی غیرضروری باشد."⟩,
            ⟨"user", .str "سلام"⟩]] ∧
      (Groq.handler ⟨"POST", .obj [("promptText", .str "سلام")]⟩ (some "sk-test")
          (.rejected ⟨"down"⟩)).calls.map (fun q => q.body.messages)
        = [[⟨"system", .str "شما یک دستیار هستید که فقط و فقط به زبان فارسی پاسخ می‌دهد و از کلمات انگلیسی استفاده نمی‌کند مگر در موارد ضروری برای اسامی خاص."⟩,
            ⟨"user", .str ("سلام" ++ " " ++ "لطفاً پاسخ را فقط و فقط به زبان فارسی روان و معیار ارائه دهید و از کلمات انگلیسی استفاده نکنید، مگر اینکه خود کلمه (مثلاً یک نام خاص) اصالتاً انگلیسی باشد و معادل فارسی رایجی نداشته باشد. در تمام موارد دیگر، پاسخ باید ۱۰۰٪ فارسی باشد.")⟩]] ∧
      "سلام".data <+: ("سلام" ++ " " ++ "لطفاً پاسخ را فقط و فقط به زبان فارسی روان و معیار ارائه دهید و از کلمات انگلیسی استفاده نکنید، مگر اینکه خود کلمه (مثلاً یک نام خاص) اصالتاً انگلیسی باشد و معادل فارسی رایجی نداشته باشد. در تمام موارد دیگر، پاسخ باید ۱۰۰٪ فارسی باشد.").data :=
  ⟨(outbound_messages ⟨"POST", .obj [("promptText", .str "سلام")]⟩ "sk-test"
      (.rejected ⟨"down"⟩) (.str "سلام") rfl rfl rfl (by decide)).1,
    (outbound_messages ⟨"POST", .obj [("promptText", .str "سلام")]⟩ "sk-test"
      (.rejected ⟨"down"⟩) (.str "سلام") rfl rfl rfl (by decide)).2 "سلام" rfl⟩

/-- The length of a non-empty array or string is above zero. -/
theorem jsGtZero_lengthNumber_succ (k : Nat) :
    jsGtZero (lengthNumber (k + 1)) = .ok true := by
  simp only [jsGtZero, lengthNumber]
  congr 1
  simp only [decide_eq_true_eq]
  omega

/-- A value with a string `content` property is an object, hence truthy. -/
theorem truthy_of_content (message : JSVal) (c : String)
    (h : getProp message "content" = .ok (.str c)) : truthy message = true := by
  cases message <;> simp_all [getProp, truthy]

/-- A result with a non-empty `choices` list whose first element has a message
with non-empty string content passes the test of the handlers. -/
theorem hasContent_of_shape (result first message : JSVal) (rest : List JSVal) (c : String)
    (hc : getProp result "choices" = .ok (.arr (first :: rest)))
    (hmsg : getProp first "message" = .ok message)
    (hcont : getProp message "content" = .ok (.str c)) (hne : c ≠ "") :
    hasContent result = .ok true ∧ generatedTextOf result = .ok (.str c) := by
  have htm := truthy_of_content message c hcont
  have hlen : getProp (.arr (first :: rest)) "length"
      = .ok (lengthNumber (first :: rest).length) := rfl
  have hgt := jsGtZero_lengthNumber_succ rest.length
  have hidx : getIndex0 (.arr (first :: rest)) = .ok first := rfl
  have htc : truthy (.str c) = true := by simp [truthy, hne]
  have htch : truthy (.arr (first :: rest)) = true := rfl
  constructor
  · simp only [hasContent, hc, htch, hlen, List.length_cons, hgt, hidx, hmsg, htm, hcont, htc]; simp
  · simp only [generatedTextOf, hc, hidx, hmsg, hcont]

/-- C4: on a POST request with a non-empty string `promptText` and a non-empty
key, and an upstream answer with a success status whose body parses to
`result`: when `result.choices` is a non-empty list whose first element has a
message with a non-empty string content `c`, both handlers answer 200 with
`generated_text` equal to `c` trimmed.  When `choices` is missing (absent or
`null`) or an empty list, or the first choice has no message (absent or
`null`), or the message has no content (absent or `null`) or an empty one, both
answer 500 with the invalid-response text in the `error` field.  When `result`
itself or its first choice is `null`, the `TypeError` of the read is caught and
answered with 500 and its text in the `error` field: nothing is thrown to the
platform. -/
theorem success_body_mapping (req : Request) (k s : String) (status : Nat)
    (statusText : String) (result : JSVal)
    (hm : req.method = "POST") (hp : getProp req.body "promptText" = .ok (.str s))
    (hs : s ≠ "") (hk : k ≠ "") (hok : statusOk status = true) :
    (∀ first rest message c,
      getProp result "choices" = .ok (.arr (first :: rest)) →
      getProp first "message" = .ok message →
      getProp message "content" = .ok (.str c) → c ≠ "" →
      (OpenAI.handler req (some k) (.response status statusText (.ok result))).response
          = ⟨200, [], .json (.obj [("generated_text", .str (jsTrim c))])⟩ ∧
        (Groq.handler req (some k) (.response status statusText (.ok result))).response
          = ⟨200, [], .json (.obj [("generated_text", .str (jsTrim c))])⟩) ∧
    ((getProp result "choices" = .ok .undefined ∨
      getProp result "choices" = .ok .null ∨
      getProp result "choices" = .ok (.arr []) ∨
      ∃ first rest, getProp result "choices" = .ok (.arr (first :: rest)) ∧
        (getProp first "message" = .ok .undefined ∨
          getProp first "message" = .ok .null ∨
          ∃ message, getProp first "message" = .ok message ∧
            (getProp message "content" = .ok .undefined ∨
              getProp message "content" = .ok .null ∨
              getProp message "content" = .ok (.str "")))) →
      (OpenAI.handler req (some k) (.response status statusText (.ok result))).response
          = ⟨500, [], .json (.obj [("error", .str "پاسخ نامعتبر از OpenAI API دریافت شد.")])⟩ ∧
        (Groq.handler req (some k) (.response status statusText (.ok result))).response
          = ⟨500, [], .json (.obj [("error", .str "پاسخ نامعتبر از Groq API دریافت شد.")])⟩) ∧
    (result = .null →
      (OpenAI.handler req (some k) (.response status statusText (.ok result))).response
          = ⟨500, [], .json (.obj [("error", .str
              "Cannot read properties of null (reading \x27choices\x27)")])⟩ ∧
        (Groq.handler req (some k) (.response status statusText (.ok result))).response
          = ⟨500, [], .json (.obj [("error", .str
              "Cannot read properties of null (reading \x27choices\x27)")])⟩) ∧
    (∀ rest, getProp result "choices" = .ok (.arr (.null :: rest)) →
      (OpenAI.handler req (some k) (.response status statusText (.ok result))).response
          = ⟨500, [], .json (.obj [("error", .str
              "Cannot read properties of null (reading \x27message\x27)")])⟩ ∧
        (Groq.handler req (some k) (.response status statusText (.ok result))).response
          = ⟨500, [], .json (.obj [("error", .str
              "Cannot read properties of null (reading \x27message\x27)")])⟩) := by
  have ht : truthy (.str s) = true := by simp [truthy, hs]
  obtain ⟨m, hmod, -⟩ := destructureBody_of_promptText req.body (.str s) hp
  rw [openai_handler_valid req k _ (.str s) m hm hp hmod ht hk,
    groq_handler_valid req k _ (.str s) m s hm hp hmod ht rfl hk]
  have hthrow : ∀ e : JSError, hasContent result = .error e → e.message ≠ "" →
      (match OpenAI.tryAfter (.response status statusText (.ok result)) with
        | .error e => catchBlock e
        | .ok r => r) = ⟨500, [], .json (.obj [("error", .str e.message)])⟩ ∧
      (match Groq.tryAfter (.response status statusText (.ok result)) with
        | .error e => catchBlock e
        | .ok r => r) = ⟨500, [], .json (.obj [("error", .str e.message)])⟩ := by
    intro e h hne
    simp [OpenAI.tryAfter, Groq.tryAfter, hok, h, catchBlock, jsOr, truthy, hne, jsonResponse]
  refine ⟨?_, ?_, ?_, ?_⟩
  · intro first rest message c hc hmsg hcont hne
    obtain ⟨h1, h2⟩ := hasContent_of_shape result first message rest c hc hmsg hcont hne
    simp [OpenAI.tryAfter, Groq.tryAfter, hok, h1, h2, callTrim, jsonResponse]
  · have key : hasContent result = .ok false →
        (match OpenAI.tryAfter (.response status statusText (.ok result)) with
          | .error e => catchBlock e
          | .ok r => r) = ⟨500, [], .json (.obj [("error", .str "پاسخ نامعتبر از OpenAI API دریافت شد.")])⟩ ∧
        (match Groq.tryAfter (.response status statusText (.ok result)) with
          | .error e => catchBlock e
          | .ok r => r) = ⟨500, [], .json (.obj [("error", .str "پاسخ نامعتبر از Groq API دریافت شد.")])⟩ := by
      intro h
      simp [OpenAI.tryAfter, Groq.tryAfter, hok, h, jsonResponse]
    rintro (h | h | h | ⟨first, rest, hc, h⟩)
    · exact key (by simp only [hasContent, h]; rfl)
    · exact key (by simp only [hasContent, h]; rfl)
    · exact key (by simp only [hasContent, h]; rfl)
    · apply key
      have hlen : getProp (.arr (first :: rest)) "length"
          = .ok (lengthNumber (first :: rest).length) := rfl
      have hgt := jsGtZero_lengthNumber_succ rest.length
      have hidx : getIndex0 (.arr (first :: rest)) = .ok first := rfl
      have htch : truthy (.arr (first :: rest)) = true := rfl
      simp only [hasContent, hc, htch, hlen, List.length_cons, hgt, hidx]
      rcases h with h | h | ⟨message, hmsg, h⟩
      · simp only [h]; rfl
      · simp only [h]; rfl
      · simp only [hmsg]
        cases htm : truthy message
        · simp
        · rcases h with h | h | h <;> simp [h, truthy]
  · rintro rfl
    exact hthrow (cannotRead "null" "choices") rfl (by decide)
  · intro rest hc
    refine hthrow (cannotRead "null" "message") ?_ (by decide)
    have hlen : getProp (.arr (.null :: rest)) "length"
        = .ok (lengthNumber (JSVal.null :: rest).length) := rfl
    have hgt := jsGtZero_lengthNumber_succ rest.length
    have hidx : getIndex0 (.arr (.null :: rest)) = .ok .null := rfl
    have htch : truthy (.arr (.null :: rest)) = true := rfl
    simp only [hasContent, hc, htch, hlen, List.length_cons, hgt, hidx]
    rfl

/-- C4 at the upstream body whose one choice has the content ` پاسخ نمونه `, and
at the empty object, which has no `choices`. -/
theorem success_body_mapping_witness :
    ((OpenAI.handler ⟨"POST", .obj [("promptText", .str "سلام")]⟩ (some "sk-test")
        (.response 200 "OK" (.ok (.obj [("choices", .arr [.obj [("message",
          .obj [("content", .str " پاسخ نمونه ")])]])])))).response
          = ⟨200, [], .json (.obj [("generated_text", .str (jsTrim " پاسخ نمونه "))])⟩ ∧
      (Groq.handler ⟨"POST", .obj [("promptText", .str "سلام")]⟩ (some "sk-test")
        (.response 200 "OK" (.ok (.obj [("choices", .arr [.obj [("message",
          .obj [("content", .str " پاسخ نمونه ")])]])])))).response
          = ⟨200, [], .json (.obj [("generated_text", .str (jsTrim " پاسخ نمونه "))])⟩) ∧
    jsTrim " پاسخ نمونه " = "پاسخ نمونه" ∧
    ((OpenAI.handler ⟨"POST", .obj [("promptText", .str "سلام")]⟩ (some "sk-test")
        (.response 200 "OK" (.ok (.obj [])))).response
          = ⟨500, [], .json (.obj [("error", .str "پاسخ نامعتبر از OpenAI API دریافت شد.")])⟩ ∧
      (Groq.handler ⟨"POST", .obj [("promptText", .str "سلام")]⟩ (some "sk-test")
        (.response 200 "OK" (.ok (.obj [])))).response
          = ⟨500, [], .json (.obj [("error", .str "پاسخ نامعتبر از Groq API دریافت شد.")])⟩) :=
  ⟨(success_body_mapping ⟨"POST", .obj [("promptText", .str "سلام")]⟩ "sk-test" "سلام" 200 "OK"
      (.obj [("choices", .arr [.obj [("message", .obj [("content", .str " پاسخ نمونه ")])]])])
      rfl rfl (by decide) (by decide) rfl).1
      (.obj [("message", .obj [("content", .str " پاسخ نمونه ")])]) []
      (.obj [("content", .str " پاسخ نمونه ")]) " پاسخ نمونه " rfl rfl rfl (by decide),
    by decide,
    (success_body_mapping ⟨"POST", .obj [("promptText", .str "سلام")]⟩ "sk-test" "سلام" 200 "OK"
      (.obj []) rfl rfl (by decide) (by decide) rfl).2.1 (Or.inl rfl)⟩

/-- The method `trim` only removes white space, and leaves none at either end:
the argument is a run of white space, the result, and a run of white space, and
the result neither starts nor ends with a white-space character. -/
theorem jsTrim_removes_outer_white_space (s : String) :
    ∃ front back : List Char,
      s.data = front ++ (jsTrim s).data ++ back ∧
      (∀ c ∈ front, isJSWhiteSpace c = true) ∧
      (∀ c ∈ back, isJSWhiteSpace c = true) ∧
      (∀ c, (jsTrim s).data.head? = some c → isJSWhiteSpace c = false) ∧
      (∀ c, (jsTrim s).data.getLast? = some c → isJSWhiteSpace c = false) := by
  have hsplit : trimStart s.data
      = trimEnd (trimStart s.data)
        ++ ((trimStart s.data).reverse.takeWhile isJSWhiteSpace).reverse := by
    have h := List.takeWhile_append_dropWhile isJSWhiteSpace (trimStart s.data).reverse
    have h2 := congrArg List.reverse h
    simp only [List.reverse_append, List.reverse_reverse] at h2
    exact h2.symm
  have hhead : ∀ c, (trimStart s.data).head? = some c → isJSWhiteSpace c = false := by
    intro c hc
    have h := List.head?_dropWhile_not isJSWhiteSpace s.data
    simp only [trimStart] at hc
    rw [hc] at h
    simpa using h
  refine ⟨s.data.takeWhile isJSWhiteSpace,
    ((trimStart s.data).reverse.takeWhile isJSWhiteSpace).reverse, ?_, ?_, ?_, ?_, ?_⟩
  · have h := (List.takeWhile_append_dropWhile isJSWhiteSpace s.data).symm
    simp only [jsTrim, List.append_assoc]
    rw [← hsplit]
    exact h
  · intro c hc
    exact List.mem_takeWhile_imp hc
  · intro c hc
    exact List.mem_takeWhile_imp (List.mem_reverse.mp hc)
  · intro c hc
    apply hhead
    simp only [jsTrim] at hc
    rw [hsplit, List.head?_append, hc]
    rfl
  · intro c hc
    simp only [jsTrim, trimEnd, List.getLast?_reverse] at hc
    have h := List.head?_dropWhile_not isJSWhiteSpace (trimStart s.data).reverse
    rw [hc] at h
    simpa using h

/-- C3, the failing input: upstream status 429 with the JSON body `null`.  The
read `errorData.error` throws on `null`, the `catch` block takes over, and both
handlers answer 500 although the upstream status is 429. -/
theorem upstream_null_body_masks_status :
    statusOk 429 = false ∧
      (OpenAI.handler ⟨"POST", .obj [("promptText", .str "سلام")]⟩ (some "sk-test")
          (.response 429 "Too Many Requests" (.ok .null))).response
        = ⟨500, [], .json (.obj [("error", .str
            "Cannot read properties of null (reading \x27error\x27)")])⟩ ∧
      (Groq.handler ⟨"POST", .obj [("promptText", .str "سلام")]⟩ (some "sk-test")
          (.response 429 "Too Many Requests" (.ok .null))).response
        = ⟨500, [], .json (.obj [("error", .str
            "Cannot read properties of null (reading \x27error\x27)")])⟩ :=
  ⟨rfl, rfl, rfl⟩

/-- Where the failure mapping itself does not throw, the upstream status is
passed through: on a POST request with a non-empty string `promptText` and a
non-empty key, an upstream answer with a non-success status `status` whose
detail evaluates to `detail`, printed as `text`, is answered with `status` and
the error string of the provider label followed by `text`. -/
theorem upstream_status_passed_through (req : Request) (k s : String) (status : Nat)
    (statusText : String) (json : Except JSError JSVal) (detail : JSVal) (text : String)
    (hm : req.method = "POST") (hp : getProp req.body "promptText" = .ok (.str s))
    (hs : s ≠ "") (hk : k ≠ "") (hno : statusOk status = false)
    (hd : errorMessageDetail (errorDataOf json statusText) statusText = .ok detail)
    (ht : toStr detail = .ok text) :
    (OpenAI.handler req (some k) (.response status statusText json)).response
        = ⟨status, [], .json (.obj [("error", .str ("خطا در ارتباط با OpenAI API: " ++ text))])⟩ ∧
      (Groq.handler req (some k) (.response status statusText json)).response
        = ⟨status, [], .json (.obj [("error", .str ("خطا در ارتباط با Groq API: " ++ text))])⟩ := by
  have htp : truthy (.str s) = true := by simp [truthy, hs]
  obtain ⟨m, hmod, -⟩ := destructureBody_of_promptText req.body (.str s) hp
  rw [openai_handler_valid req k _ (.str s) m hm hp hmod htp hk,
    groq_handler_valid req k _ (.str s) m s hm hp hmod htp rfl hk]
  simp [OpenAI.tryAfter, Groq.tryAfter, hno, hd, ht, jsonResponse]

/-- The detail of an upstream failure follows the priority order: the
`error.message` of the parsed body when it is truthy, else the top-level
`message` when it is truthy, else the status text; and a body that does not
parse gives the status text. -/
theorem errorMessageDetail_priority (errorData err top : JSVal) (statusText : String)
    (he : getProp errorData "error" = .ok err) (htop : getProp errorData "message" = .ok top) :
    (∀ msg, truthy err = true → getProp err "message" = .ok msg → truthy msg = true →
      errorMessageDetail errorData statusText = .ok msg) ∧
    ((truthy err = false ∨ ∃ msg, getProp err "message" = .ok msg ∧ truthy msg = false) →
      (truthy top = true → errorMessageDetail errorData statusText = .ok top) ∧
      (truthy top = false → errorMessageDetail errorData statusText = .ok (.str statusText))) ∧
    (∀ e, errorMessageDetail (errorDataOf (.error e) statusText) statusText
      = .ok (.str statusText)) := by
  refine ⟨?_, ?_, ?_⟩
  · intro msg h1 h2 h3
    simp [errorMessageDetail, he, h1, h2, h3]
  · rintro (h | ⟨msg, h2, h3⟩)
    · constructor <;> intro h4 <;> simp [errorMessageDetail, he, h, htop, jsOr, h4]
    · cases h1 : truthy err <;> constructor <;> intro h4 <;>
        simp [errorMessageDetail, he, h1, h2, h3, htop, jsOr, h4]
  · intro e
    cases hst : truthy (.str statusText) <;>
      simp [errorMessageDetail, errorDataOf, getProp, lookupField, List.lookup, truthy, jsOr, hst]

/-- The example of the specification: upstream 429 with the body
`error.message = "rate limited"` is answered with 429 and an error string that
ends in `rate limited`. -/
theorem rate_limited_example :
    (OpenAI.handler ⟨"POST", .obj [("promptText", .str "سلام")]⟩ (some "sk-test")
        (.response 429 "Too Many Requests"
          (.ok (.obj [("error", .obj [("message", .str "rate limited")])])))).response
      = ⟨429, [], .json (.obj [("error", .str ("خطا در ارتباط با OpenAI API: " ++ "rate limited"))])⟩ ∧
    (Groq.handler ⟨"POST", .obj [("promptText", .str "سلام")]⟩ (some "sk-test")
        (.response 429 "Too Many Requests"
          (.ok (.obj [("error", .obj [("message", .str "rate limited")])])))).response
      = ⟨429, [], .json (.obj [("error", .str ("خطا در ارتباط با Groq API: " ++ "rate limited"))])⟩ :=
  ⟨rfl, rfl⟩

/-- C7, the failing input: upstream status 503 with status text
`Service Unavailable` and the JSON body `null`.  The body has neither
`error.message` nor `message`, so the detail should be the status text; the
read `errorData.error` throws instead and the caller sees the text of that
`TypeError`, without the provider label. -/
theorem upstream_null_body_loses_detail :
    (OpenAI.handler ⟨"POST", .obj [("promptText", .str "سلام")]⟩ (some "sk-test")
        (.response 503 "Service Unavailable" (.ok .null))).response.body
      = .json (.obj [("error", .str "Cannot read properties of null (reading \x27error\x27)")]) ∧
    (Groq.handler ⟨"POST", .obj [("promptText", .str "سلام")]⟩ (some "sk-test")
        (.response 503 "Service Unavailable" (.ok .null))).response.body
      = .json (.obj [("error", .str "Cannot read properties of null (reading \x27error\x27)")]) ∧
    "Cannot read properties of null (reading \x27error\x27)"
      ≠ "خطا در ارتباط با OpenAI API: " ++ "Service Unavailable" ∧
    "Cannot read properties of null (reading \x27error\x27)"
      ≠ "خطا در ارتباط با Groq API: " ++ "Service Unavailable" :=
  ⟨rfl, rfl, by decide, by decide⟩

/-- C8: on a POST request, every failure that the `try` block raises, before
the outbound call or after it, is caught: the handler answers 500 with the
`error` field set to the message of the failure, or to the fixed fallback when
the message is empty.  The failures named by the claim are raised indeed: an
unreadable body (`null`) before the call; after it a rejected `fetch`, a
success body that does not parse, and the read of `choices` on the parsed body
`null`.  The handler is a total function, so every invocation ends in a
response. -/
theorem failures_become_500 (req : Request) (key : Option String) (upstream : FetchOutcome)
    (hm : req.method = "POST") :
    ((∀ e, OpenAI.tryBefore req key = .error e →
        OpenAI.handler req key upstream
          = ⟨⟨500, [], .json (.obj [("error",
              .str (if e.message = "" then "خطای داخلی سرور در تابع بدون سرور." else e.message))])⟩, []⟩) ∧
      (∀ q e, OpenAI.tryBefore req key = .ok (.call q) → OpenAI.tryAfter upstream = .error e →
        OpenAI.handler req key upstream
          = ⟨⟨500, [], .json (.obj [("error",
              .str (if e.message = "" then "خطای داخلی سرور در تابع بدون سرور." else e.message))])⟩, [q]⟩)) ∧
    ((∀ e, Groq.tryBefore req key = .error e →
        Groq.handler req key upstream
          = ⟨⟨500, [], .json (.obj [("error",
              .str (if e.message = "" then "خطای داخلی سرور در تابع بدون سرور." else e.message))])⟩, []⟩) ∧
      (∀ q e, Groq.tryBefore req key = .ok (.call q) → Groq.tryAfter upstream = .error e →
        Groq.handler req key upstream
          = ⟨⟨500, [], .json (.obj [("error",
              .str (if e.message = "" then "خطای داخلی سرور در تابع بدون سرور." else e.message))])⟩, [q]⟩)) ∧
    ((req.body = .null →
        OpenAI.tryBefore req key = .error (cannotDestructure "null") ∧
        Groq.tryBefore req key = .error (cannotDestructure "null")) ∧
      (∀ e, OpenAI.tryAfter (.rejected e) = .error e ∧ Groq.tryAfter (.rejected e) = .error e) ∧
      (∀ status statusText e, statusOk status = true →
        OpenAI.tryAfter (.response status statusText (.error e)) = .error e ∧
        Groq.tryAfter (.response status statusText (.error e)) = .error e) ∧
      (∀ status statusText, statusOk status = true →
        OpenAI.tryAfter (.response status statusText (.ok .null))
          = .error (cannotRead "null" "choices") ∧
        Groq.tryAfter (.response status statusText (.ok .null))
          = .error (cannotRead "null" "choices"))) := by
  have hcatch : ∀ e : JSError, catchBlock e
      = ⟨500, [], .json (.obj [("error",
          .str (if e.message = "" then "خطای داخلی سرور در تابع بدون سرور." else e.message))])⟩ := by
    intro e
    by_cases h : e.message = "" <;> simp [catchBlock, jsOr, truthy, jsonResponse, h]
  have hn : hasContent .null = .error (cannotRead "null" "choices") := rfl
  refine ⟨⟨?_, ?_⟩, ⟨?_, ?_⟩, ?_, ?_, ?_, ?_⟩
  · intro e h
    simp [OpenAI.handler, hm, h, hcatch]
  · intro q e h1 h2
    simp [OpenAI.handler, hm, h1, h2, hcatch]
  · intro e h
    simp [Groq.handler, hm, h, hcatch]
  · intro q e h1 h2
    simp [Groq.handler, hm, h1, h2, hcatch]
  · intro h
    simp [OpenAI.tryBefore, Groq.tryBefore, h, destructureBody]
  · intro e
    exact ⟨rfl, rfl⟩
  · intro status statusText e h
    simp [OpenAI.tryAfter, Groq.tryAfter, h]
  · intro status statusText h
    simp [OpenAI.tryAfter, Groq.tryAfter, h, hn]

/-- C8 at a POST request with the body `null`, and at a valid request whose
`fetch` rejects with an empty message. -/
theorem failures_become_500_witness :
    (OpenAI.handler ⟨"POST", .null⟩ (some "sk-test") (.rejected ⟨"fetch failed"⟩)
        = ⟨⟨500, [], .json (.obj [("error",
            .str (if (cannotDestructure "null").message = "" then "خطای داخلی سرور در تابع بدون سرور."
              else (cannotDestructure "null").message))])⟩, []⟩) ∧
    (Groq.handler ⟨"POST", .obj [("promptText", .str "سلام")]⟩ (some "sk-test") (.rejected ⟨""⟩)
        = ⟨⟨500, [], .json (.obj [("error",
            .str (if (JSError.mk "").message = "" then "خطای داخلی سرور در تابع بدون سرور."
              else (JSError.mk "").message))])⟩,
          [⟨Groq.groqApiUrl, "POST",
            [("Content-Type", "application/json"), ("Authorization", "Bearer " ++ "sk-test")],
            Groq.payload (.str "llama3-8b-8192")
              (.str ("سلام" ++ " " ++ Groq.languageClause))⟩]⟩) :=
  ⟨(failures_become_500 ⟨"POST", .null⟩ (some "sk-test") (.rejected ⟨"fetch failed"⟩) rfl).1.1
      (cannotDestructure "null") rfl,
    (failures_become_500 ⟨"POST", .obj [("promptText", .str "سلام")]⟩ (some "sk-test")
      (.rejected ⟨""⟩) rfl).2.1.2 _ ⟨""⟩ rfl rfl⟩

/-- For one and the same outcome of `fetch`, two runs of a handler that differ
only in the value of the non-empty key give the same response and hand the same
request to `fetch` up to its headers, where the key appears in
`Authorization: Bearer <key>` only. -/
theorem handler_independent_of_key (req : Request) (k₁ k₂ : String) (upstream : FetchOutcome)
    (h₁ : k₁ ≠ "") (h₂ : k₂ ≠ "") :
    ((OpenAI.handler req (some k₁) upstream).response
        = (OpenAI.handler req (some k₂) upstream).response ∧
      (OpenAI.handler req (some k₁) upstream).calls.map (fun q => (q.url, q.method, q.body))
        = (OpenAI.handler req (some k₂) upstream).calls.map (fun q => (q.url, q.method, q.body)) ∧
      ∀ q ∈ (OpenAI.handler req (some k₁) upstream).calls,
        q.headers = [("Content-Type", "application/json"), ("Authorization", "Bearer " ++ k₁)]) ∧
    ((Groq.handler req (some k₁) upstream).response
        = (Groq.handler req (some k₂) upstream).response ∧
      (Groq.handler req (some k₁) upstream).calls.map (fun q => (q.url, q.method, q.body))
        = (Groq.handler req (some k₂) upstream).calls.map (fun q => (q.url, q.method, q.body)) ∧
      ∀ q ∈ (Groq.handler req (some k₁) upstream).calls,
        q.headers = [("Content-Type", "application/json"), ("Authorization", "Bearer " ++ k₁)]) := by
  have hk₁ := truthy_envValue_some k₁ h₁
  have hk₂ := truthy_envValue_some k₂ h₂
  have ht₁ : toStr (envValue (some k₁)) = .ok k₁ := rfl
  have ht₂ : toStr (envValue (some k₂)) = .ok k₂ := rfl
  by_cases hm : req.method = "POST"
  · cases hd : destructureBody req.body with
    | error e => simp [OpenAI.handler, Groq.handler, OpenAI.tryBefore, Groq.tryBefore, hm, hd]
    | ok pm =>
      obtain ⟨p, m⟩ := pm
      cases hp : truthy p
      · simp [OpenAI.handler, Groq.handler, OpenAI.tryBefore, Groq.tryBefore, hm, hd, hp]
      · constructor
        · simp only [OpenAI.handler, OpenAI.tryBefore, hm, hd, hp, hk₁, hk₂, ht₁, ht₂]
          cases OpenAI.tryAfter upstream <;> simp
        · cases hs : toStr p with
          | error e =>
            simp [Groq.handler, Groq.tryBefore, hm, hd, hp, hk₁, hk₂, hs]
          | ok t =>
            simp only [Groq.handler, Groq.tryBefore, hm, hd, hp, hk₁, hk₂, ht₁, ht₂, hs]
            cases Groq.tryAfter upstream <;> simp
  · simp [OpenAI.handler, Groq.handler, hm]


/-- A request whose key gives a header value that `fetch` accepts is served with
the outcome of the network. -/
theorem openai_serve_accepted (req : Request) (k : String) (network : FetchOutcome)
    (ha : headerValueError ("Bearer " ++ k) = none) :
    OpenAI.serve req (some k) network = OpenAI.handler req (some k) network := by
  have hct : headerValueError "application/json" = none := by rfl
  have hts : toStr (envValue (some k)) = .ok k := rfl
  cases hd : destructureBody req.body with
  | error e => simp [OpenAI.serve, OpenAI.tryBefore, hd]
  | ok pm =>
    obtain ⟨p, m⟩ := pm
    cases hp : truthy p
    · simp [OpenAI.serve, OpenAI.tryBefore, hd, hp]
    · cases hk : truthy (envValue (some k))
      · simp [OpenAI.serve, OpenAI.tryBefore, hd, hp, hk]
      · simp [OpenAI.serve, OpenAI.tryBefore, hd, hp, hk, hts, fetch, headersError, hct, ha]

/-- The Groq counterpart of `openai_serve_accepted`. -/
theorem groq_serve_accepted (req : Request) (k : String) (network : FetchOutcome)
    (ha : headerValueError ("Bearer " ++ k) = none) :
    Groq.serve req (some k) network = Groq.handler req (some k) network := by
  have hct : headerValueError "application/json" = none := by rfl
  have hts : toStr (envValue (some k)) = .ok k := rfl
  cases hd : destructureBody req.body with
  | error e => simp [Groq.serve, Groq.tryBefore, hd]
  | ok pm =>
    obtain ⟨p, m⟩ := pm
    cases hp : truthy p
    · simp [Groq.serve, Groq.tryBefore, hd, hp]
    · cases hk : truthy (envValue (some k))
      · simp [Groq.serve, Groq.tryBefore, hd, hp, hk]
      · cases hs : toStr p with
        | error e => simp [Groq.serve, Groq.tryBefore, hd, hp, hk, hs]
        | ok t =>
          simp [Groq.serve, Groq.tryBefore, hd, hp, hk, hs, hts, fetch, headersError, hct, ha]

/-- C10, the counterexample: the same request against the same network, which
answers 200 with the content `ok`, under the keys `sk-test` and `sk-sec\nret`.
With the first key both handlers answer 200.  The second key holds a line feed,
`fetch` rejects the header `Bearer sk-sec\nret` with a `TypeError` whose message
quotes it, and the `catch` block sends that message to the caller: the answer
is 500 and its `error` text contains the key. -/
theorem key_value_reaches_caller :
    ((OpenAI.serve ⟨"POST", .obj [("promptText", .str "سلام")]⟩ (some "sk-test")
          (.response 200 "OK" (.ok (.obj [("choices", .arr [.obj [("message", .obj [("content", .str "ok")])]])])))).response
        = ⟨200, [], .json (.obj [("generated_text", .str "ok")])⟩ ∧
      (OpenAI.serve ⟨"POST", .obj [("promptText", .str "سلام")]⟩ (some "sk-sec\nret")
          (.response 200 "OK" (.ok (.obj [("choices", .arr [.obj [("message", .obj [("content", .str "ok")])]])])))).response
        = ⟨500, [], .json (.obj [("error", .str
            "Headers.append: \x22Bearer sk-sec\nret\x22 is an invalid header value.")])⟩) ∧
    ((Groq.serve ⟨"POST", .obj [("promptText", .str "سلام")]⟩ (some "sk-test")
          (.response 200 "OK" (.ok (.obj [("choices", .arr [.obj [("message", .obj [("content", .str "ok")])]])])))).response
        = ⟨200, [], .json (.obj [("generated_text", .str "ok")])⟩ ∧
      (Groq.serve ⟨"POST", .obj [("promptText", .str "سلام")]⟩ (some "sk-sec\nret")
          (.response 200 "OK" (.ok (.obj [("choices", .arr [.obj [("message", .obj [("content", .str "ok")])]])])))).response
        = ⟨500, [], .json (.obj [("error", .str
            "Headers.append: \x22Bearer sk-sec\nret\x22 is an invalid header value.")])⟩) ∧
    (OpenAI.serve ⟨"POST", .obj [("promptText", .str "سلام")]⟩ (some "sk-test")
          (.response 200 "OK" (.ok (.obj [("choices", .arr [.obj [("message", .obj [("content", .str "ok")])]])])))).response
      ≠ (OpenAI.serve ⟨"POST", .obj [("promptText", .str "سلام")]⟩ (some "sk-sec\nret")
          (.response 200 "OK" (.ok (.obj [("choices", .arr [.obj [("message", .obj [("content", .str "ok")])]])])))).response ∧
    (Groq.serve ⟨"POST", .obj [("promptText", .str "سلام")]⟩ (some "sk-test")
          (.response 200 "OK" (.ok (.obj [("choices", .arr [.obj [("message", .obj [("content", .str "ok")])]])])))).response
      ≠ (Groq.serve ⟨"POST", .obj [("promptText", .str "سلام")]⟩ (some "sk-sec\nret")
          (.response 200 "OK" (.ok (.obj [("choices", .arr [.obj [("message", .obj [("content", .str "ok")])]])])))).response ∧
    "sk-sec\nret".data
      <:+: "Headers.append: \x22Bearer sk-sec\nret\x22 is an invalid header value.".data :=
  ⟨⟨rfl, rfl⟩, ⟨rfl, rfl⟩,
    fun h => absurd (congrArg Response.status h) (by decide),
    fun h => absurd (congrArg Response.status h) (by decide),
    ⟨"Headers.append: \x22Bearer ".data, "\x22 is an invalid header value.".data, rfl⟩⟩

/-- C10 as amended: for every request and every outcome of the network, two
runs of a handler on the platform that differ only in the value of the
non-empty key give the same response (status, headers and body) and hand the
same request to `fetch` up to its headers, provided `fetch` accepts the header
value `Bearer <key>` of both keys; the key appears only in the header
`Authorization: Bearer <key>` of the outbound call. -/
theorem response_independent_of_accepted_key (req : Request) (k₁ k₂ : String)
    (network : FetchOutcome) (h₁ : k₁ ≠ "") (h₂ : k₂ ≠ "")
    (a₁ : headerValueError ("Bearer " ++ k₁) = none)
    (a₂ : headerValueError ("Bearer " ++ k₂) = none) :
    ((OpenAI.serve req (some k₁) network).response
        = (OpenAI.serve req (some k₂) network).response ∧
      (OpenAI.serve req (some k₁) network).calls.map (fun q => (q.url, q.method, q.body))
        = (OpenAI.serve req (some k₂) network).calls.map (fun q => (q.url, q.method, q.body)) ∧
      ∀ q ∈ (OpenAI.serve req (some k₁) network).calls,
        q.headers = [("Content-Type", "application/json"), ("Authorization", "Bearer " ++ k₁)]) ∧
    ((Groq.serve req (some k₁) network).response
        = (Groq.serve req (some k₂) network).response ∧
      (Groq.serve req (some k₁) network).calls.map (fun q => (q.url, q.method, q.body))
        = (Groq.serve req (some k₂) network).calls.map (fun q => (q.url, q.method, q.body)) ∧
      ∀ q ∈ (Groq.serve req (some k₁) network).calls,
        q.headers = [("Content-Type", "application/json"), ("Authorization", "Bearer " ++ k₁)]) := by
  rw [openai_serve_accepted req k₁ network a₁, openai_serve_accepted req k₂ network a₂,
    groq_serve_accepted req k₁ network a₁, groq_serve_accepted req k₂ network a₂]
  exact handler_independent_of_key req k₁ k₂ network h₁ h₂

/-- C10 as amended, at the keys `sk-one` and `sk-two` with a network that
answers 200. -/
theorem response_independent_of_accepted_key_witness :
    ((OpenAI.serve ⟨"POST", .obj [("promptText", .str "سلام")]⟩ (some "sk-one") (.response 200 "OK" (.ok (.obj [("choices", .arr [.obj [("message", .obj [("content", .str "ok")])]])])))).response
        = (OpenAI.serve ⟨"POST", .obj [("promptText", .str "سلام")]⟩ (some "sk-two")
            (.response 200 "OK" (.ok (.obj [("choices", .arr [.obj [("message", .obj [("content", .str "ok")])]])])))).response ∧
      (OpenAI.serve ⟨"POST", .obj [("promptText", .str "سلام")]⟩ (some "sk-one")
          (.response 200 "OK" (.ok (.obj [("choices", .arr [.obj [("message", .obj [("content", .str "ok")])]])])))).calls.map (fun q => (q.url, q.method, q.body))
        = (OpenAI.serve ⟨"POST", .obj [("promptText", .str "سلام")]⟩ (some "sk-two")
          (.response 200 "OK" (.ok (.obj [("choices", .arr [.obj [("message", .obj [("content", .str "ok")])]])])))).calls.map (fun q => (q.url, q.method, q.body)) ∧
      ∀ q ∈ (OpenAI.serve ⟨"POST", .obj [("promptText", .str "سلام")]⟩ (some "sk-one")
          (.response 200 "OK" (.ok (.obj [("choices", .arr [.obj [("message", .obj [("content", .str "ok")])]])])))).calls,
        q.headers
          = [("Content-Type", "application/json"), ("Authorization", "Bearer " ++ "sk-one")]) ∧
    ((Groq.serve ⟨"POST", .obj [("promptText", .str "سلام")]⟩ (some "sk-one") (.response 200 "OK" (.ok (.obj [("choices", .arr [.obj [("message", .obj [("content", .str "ok")])]])])))).response
        = (Groq.serve ⟨"POST", .obj [("promptText", .str "سلام")]⟩ (some "sk-two")
            (.response 200 "OK" (.ok (.obj [("choices", .arr [.obj [("message", .obj [("content", .str "ok")])]])])))).response ∧
      (Groq.serve ⟨"POST", .obj [("promptText", .str "سلام")]⟩ (some "sk-one")
          (.response 200 "OK" (.ok (.obj [("choices", .arr [.obj [("message", .obj [("content", .str "ok")])]])])))).calls.map (fun q => (q.url, q.method, q.body))
        = (Groq.serve ⟨"POST", .obj [("promptText", .str "سلام")]⟩ (some "sk-two")
          (.response 200 "OK" (.ok (.obj [("choices", .arr [.obj [("message", .obj [("content", .str "ok")])]])])))).calls.map (fun q => (q.url, q.method, q.body)) ∧
      ∀ q ∈ (Groq.serve ⟨"POST", .obj [("promptText", .str "سلام")]⟩ (some "sk-one")
          (.response 200 "OK" (.ok (.obj [("choices", .arr [.obj [("message", .obj [("content", .str "ok")])]])])))).calls,
        q.headers
          = [("Content-Type", "application/json"), ("Authorization", "Bearer " ++ "sk-one")]) :=
  response_independent_of_accepted_key ⟨"POST", .obj [("promptText", .str "سلام")]⟩
    "sk-one" "sk-two" (.response 200 "OK" (.ok (.obj [("choices", .arr [.obj [("message", .obj [("content", .str "ok")])]])]))) (by decide) (by decide) rfl rfl

end SafeMind
